import Mathlib

/-!
Verification development for the rock-paper-scissors stake-match repository.

The definitions below are shallow embeddings of the TypeScript/JavaScript
sources:
* `src/hooks/use-game.ts` — the client-side session state (`GameState`) and
  its socket event handlers (`handlePlayerLeft`, `handlePlayerDisconnected`,
  `handleMoveSubmitted`, `handleRoundCompleted`, `handleNextRound`,
  `handleGameJoined`).
* `src/hooks/use-anchor-program.ts` — `findGamePDA` and the recovery branch of
  `finalizeGame` for matches finished off-chain.
* `src/unnamed/part_010` (the auto-finalization service) —
  `findGamePDA`, `autoFinalizeSolGame`, and the payout/fee computation.

JavaScript numbers appearing in money computations are modelled exactly as
rationals (`ℚ`); JavaScript strings appearing in PDA-seed computations are
modelled as lists of Unicode code points so that the UTF-16 semantics of
`String.prototype.substring` and the UTF-8 semantics of `Buffer.from` are
kept apart.  Nullable values (`null`/`undefined`) are modelled with `Option`.
-/

/-- The `currency` field of a session: `'points' | 'sol'`. -/
inductive Currency
  | points
  | sol
deriving DecidableEq

/-- The `gameType` field of a session: `'private' | 'public'`. -/
inductive GameType
  | privateGame
  | publicGame
deriving DecidableEq

/-- The `gameStatus` field of the client `GameState`
(`'lobby' | 'waiting' | 'playing' | 'game-over' | 'round-result'`). -/
inductive GStatus
  | lobby
  | waiting
  | playing
  | gameOver
  | roundResult
deriving DecidableEq

/-- The `Player` record of `use-game.ts`: id, wallet, wins, last submitted
move, and the ready flag. -/
structure Player where
  id : Option String
  wallet : Option String
  wins : Nat
  currentMove : Option String
  ready : Bool
deriving DecidableEq

/-- The client `GameState` of `use-game.ts` (fields used by the handlers
below; `inviteLink` and the callback-only fields are omitted as no claim
mentions them). -/
structure GameState where
  gameId : Option String
  gameType : GameType
  currency : Currency
  player1 : Player
  player2 : Option Player
  currentRound : Nat
  gameStatus : GStatus
  winner : Option String
  stakeAmount : ℚ
  totalPot : ℚ
  roundResult : Option String
  countdown : Nat
deriving DecidableEq

/-- The reset literal used by `use-game.ts` whenever the session is torn down
(initial `useState` value, `leaveGame`, `resetGameState`, and the
waiting-state branch of `handlePlayerLeft`). -/
def initialGameState : GameState :=
  { gameId := none
    gameType := GameType.privateGame
    currency := Currency.points
    player1 := { id := some ("you"), wallet := none, wins := 0,
                 currentMove := none, ready := false }
    player2 := none
    currentRound := 1
    gameStatus := GStatus.lobby
    winner := none
    stakeAmount := 0
    totalPot := 0
    roundResult := none
    countdown := 0 }

/-- The object passed to `options.onGameFinished` by the forfeit handlers of
`use-game.ts`: `gameId`, `winner.playerId`, `winner.reason`, `quitReason`,
plus the raw `gameState` payload (only forwarded by the disconnect handler;
modelled opaquely as an optional string). -/
structure ForfeitNotice where
  gameId : Option String
  winnerPlayerId : Option String
  winnerReason : String
  quitReason : String
  gameStatePayload : Option String
deriving DecidableEq

/-- `handlePlayerLeft` of `use-game.ts` (lines 659-699): if the game was
`playing`, declare the local player (`myPlayerId`) winner by forfeit, move to
`game-over`, and fire `onGameFinished` with `winner.reason = 'opponent_quit'`
and `quitReason = 'opponent_left'`; otherwise reset to the lobby state
without a notification. -/
def handlePlayerLeft (myPlayerId : Option String) (dataGameId : Option String)
    (prev : GameState) : GameState × Option ForfeitNotice :=
  if prev.gameStatus = GStatus.playing then
    ({ prev with
        gameStatus := GStatus.gameOver
        winner := myPlayerId
        roundResult := some ("You won! Your opponent left the game.") },
     some { gameId := dataGameId
            winnerPlayerId := myPlayerId
            winnerReason := "opponent_quit"
            quitReason := "opponent_left"
            gameStatePayload := none })
  else
    (initialGameState, none)

/-- The `player_disconnected` payload: `gameId`, `disconnectedPlayerId`, and
the raw `gameState` the handler forwards verbatim. -/
structure DisconnectData where
  gameId : Option String
  disconnectedPlayerId : String
  gameState : Option String
deriving DecidableEq

/-- `handlePlayerDisconnected` of `use-game.ts` (lines 904-930): if the
disconnected player is not the local player and the game was `playing`,
declare the local player winner by forfeit with
`winner.reason = 'opponent_disconnect'` and
`quitReason = 'opponent_disconnected'`; otherwise do nothing. -/
def handlePlayerDisconnected (myPlayerId : Option String) (d : DisconnectData)
    (prev : GameState) : GameState × Option ForfeitNotice :=
  if some d.disconnectedPlayerId ≠ myPlayerId ∧ prev.gameStatus = GStatus.playing then
    ({ prev with
        gameStatus := GStatus.gameOver
        winner := myPlayerId
        roundResult := some ("You won! Your opponent disconnected.") },
     some { gameId := d.gameId
            winnerPlayerId := myPlayerId
            winnerReason := "opponent_disconnect"
            quitReason := "opponent_disconnected"
            gameStatePayload := d.gameState })
  else
    (prev, none)

/-- The `move_submitted` payload: which player moved and the move itself. -/
structure MoveSubmittedData where
  playerId : String
  move : String
deriving DecidableEq

/-- `handleMoveSubmitted` of `use-game.ts` (lines 541-568): record the move
and set `ready := true` for whichever player slot matches `data.playerId`. -/
def handleMoveSubmitted (d : MoveSubmittedData) (prev : GameState) : GameState :=
  let isPlayer1Move := prev.player1.id = some d.playerId
  { prev with
      player1 :=
        if isPlayer1Move then
          { prev.player1 with currentMove := some d.move, ready := true }
        else prev.player1
      player2 :=
        match prev.player2 with
        | some p2 =>
            if p2.id = some d.playerId then
              some { p2 with currentMove := some d.move, ready := true }
            else some p2
        | none => none }

/-- The parts of the `round_completed` payload read by the handler:
`roundResult.roundWinner`, `roundResult.scores`, and the wallets / kept moves
/ round number of `data.gameState`. -/
structure RoundCompletedData where
  roundWinner : Option String
  scoresPlayer1 : Nat
  scoresPlayer2 : Nat
  gsPlayer1Wallet : Option String
  gsPlayer2Wallet : Option String
  gsPlayer1Move : Option String
  gsPlayer2Move : Option String
  gsCurrentRound : Option Nat
deriving DecidableEq

/-- JavaScript `x || y` on an optional number: `0`, `null` and `undefined`
all fall back to `y`. -/
def jsOrNat (x : Option Nat) (y : Nat) : Nat :=
  match x with
  | some v => if v = 0 then y else v
  | none => y

/-- `handleRoundCompleted` of `use-game.ts` (lines 570-623): compute the
round-result message from the winner position and the local wallet, copy the
scores, keep each `currentMove` for the result UI (falling back to the
previous move when the payload has none), set both `ready` flags to `false`,
and move to `round-result`. -/
def handleRoundCompleted (myWallet : Option String) (d : RoundCompletedData)
    (prev : GameState) : GameState :=
  let roundResultMessage :=
    if d.roundWinner = some ("player1") then
      if d.gsPlayer1Wallet = myWallet then
        "You won this round!" else "You lost this round!"
    else if d.roundWinner = some ("player2") then
      if d.gsPlayer2Wallet = myWallet then
        "You won this round!" else "You lost this round!"
    else "It\x27s a draw!"
  { prev with
      player1 :=
        { prev.player1 with
            wins := d.scoresPlayer1
            currentMove :=
              match d.gsPlayer1Move with
              | some m => some m
              | none => prev.player1.currentMove
            ready := false }
      player2 :=
        match prev.player2 with
        | some p2 =>
            some { p2 with
                    wins := d.scoresPlayer2
                    currentMove :=
                      match d.gsPlayer2Move with
                      | some m => some m
                      | none => p2.currentMove
                    ready := false }
        | none => none
      currentRound := jsOrNat d.gsCurrentRound prev.currentRound
      roundResult := some roundResultMessage
      gameStatus := GStatus.roundResult }

/-- `handleNextRound` of `use-game.ts` (lines 625-657): after the 3-second
display delay, advance the round number, clear the result message and both
players' moves (ready is derived from the move, so it becomes `false`), and
return to `playing`. -/
def handleNextRound (round : Nat) (prev : GameState) : GameState :=
  { prev with
      currentRound := round
      roundResult := none
      gameStatus := GStatus.playing
      player1 := { prev.player1 with currentMove := none, ready := false }
      player2 :=
        match prev.player2 with
        | some p2 => some { p2 with currentMove := none, ready := false }
        | none => none }

/-- A player slot of the `game_joined` payload, with the optional fields the
handler defaults (`wins || 0`, `ready ?? false`). -/
structure PlayerPayload where
  id : Option String
  wallet : Option String
  wins : Option Nat
  currentMove : Option String
  ready : Option Bool
deriving DecidableEq

/-- The parts of the `game_joined` payload read by the handler. -/
structure GameJoinedData where
  gameId : Option String
  gameType : GameType
  currency : Option Currency
  player1 : PlayerPayload
  player2 : Option PlayerPayload
  currentRound : Option Nat
  gameStatus : Option String
  winner : Option String
  stakeAmount : ℚ
  totalPot : ℚ
deriving DecidableEq

/-- `handleGameJoined` of `use-game.ts` (lines 203-254): replace the whole
client state from the payload.  Each player's `currentMove` and `ready` are
copied verbatim (`ready ?? false`); player 2 of a private SOL game is forced
to stay in `waiting` until the on-chain transactions complete, otherwise the
status is `playing` exactly when the payload says `'playing'`. -/
def handleGameJoined (myPlayerId : Option String) (d : GameJoinedData) : GameState :=
  let isPlayer2 := (match d.player2 with
    | some p2 => p2.id
    | none => none) = myPlayerId
  { gameId := d.gameId
    gameType := d.gameType
    currency := d.currency.getD Currency.points
    player1 :=
      { id := d.player1.id
        wallet := d.player1.wallet
        wins := jsOrNat d.player1.wins 0
        currentMove := d.player1.currentMove
        ready := d.player1.ready.getD false }
    player2 :=
      match d.player2 with
      | some p2 =>
          some { id := p2.id
                 wallet := p2.wallet
                 wins := jsOrNat p2.wins 0
                 currentMove := p2.currentMove
                 ready := p2.ready.getD false }
      | none => none
    currentRound := jsOrNat d.currentRound 1
    gameStatus :=
      if isPlayer2 ∧ d.currency.getD Currency.points = Currency.sol ∧
          d.gameType = GameType.privateGame then
        GStatus.waiting
      else if d.gameStatus = some ("playing") then GStatus.playing
      else GStatus.waiting
    winner := d.winner
    stakeAmount := d.stakeAmount
    totalPot := d.totalPot
    roundResult := none
    countdown := 0 }

/-!  The payout computation of the auto-finalization service
(`src/unnamed/part_010`, lines 326-329); `use-anchor-program.ts` lines
347-349 contain the same formulas.  Amounts are in SOL, modelled as exact
rationals. -/

/-- `const totalPot = stakeAmount * 2`. -/
def totalPot (stakeAmount : ℚ) : ℚ := stakeAmount * 2

/-- `const feeRate = stakeAmount <= 0.01 ? 0.05 : stakeAmount <= 0.05 ? 0.03 : 0.02`. -/
def feeRate (stakeAmount : ℚ) : ℚ :=
  if stakeAmount ≤ 1/100 then 5/100
  else if stakeAmount ≤ 5/100 then 3/100
  else 2/100

/-- `const platformFee = totalPot * feeRate`. -/
def platformFee (stakeAmount : ℚ) : ℚ := totalPot stakeAmount * feeRate stakeAmount

/-- `const expectedWinnings = totalPot - platformFee`. -/
def expectedWinnings (stakeAmount : ℚ) : ℚ :=
  totalPot stakeAmount - platformFee stakeAmount

/-- Claim C3: for every stake `s`, the pot is `2·s`; the fee rate is 5% for
`s ≤ 0.01`, 3% for `0.01 < s ≤ 0.05`, 2% otherwise; the platform fee is
`pot·feeRate` and the winner payout is `pot·(1 − feeRate)`; and at `s = 0.03`
the pot is `0.06`, the winner payout `0.0582` and the platform fee `0.0018`. -/
theorem finalization_payout_correct (s : ℚ) :
    totalPot s = 2 * s ∧
    (s ≤ 1/100 → feeRate s = 5/100) ∧
    (1/100 < s → s ≤ 5/100 → feeRate s = 3/100) ∧
    (5/100 < s → feeRate s = 2/100) ∧
    platformFee s = totalPot s * feeRate s ∧
    expectedWinnings s = totalPot s * (1 - feeRate s) ∧
    (totalPot (3/100) = 6/100 ∧ expectedWinnings (3/100) = 582/10000 ∧
      platformFee (3/100) = 18/10000) := by
  refine ⟨by rw [totalPot]; ring, ?_, ?_, ?_, rfl, ?_, ?_, ?_, ?_⟩
  · intro h
    rw [feeRate, if_pos h]
  · intro h1 h2
    rw [feeRate, if_neg (by linarith), if_pos h2]
  · intro h
    rw [feeRate, if_neg (by linarith), if_neg (by linarith)]
  · rw [expectedWinnings, platformFee]; ring
  · norm_num [totalPot]
  · norm_num [expectedWinnings, totalPot, platformFee, feeRate]
  · norm_num [platformFee, totalPot, feeRate]

/-- Witness for C3: the theorem applied at the concrete stake `0.03`,
discharging the tier hypotheses there. -/
theorem finalization_payout_correct_witness :
    feeRate (3/100) = 3/100 ∧ totalPot (3/100) = 6/100 ∧
    expectedWinnings (3/100) = 582/10000 ∧ platformFee (3/100) = 18/10000 := by
  have h := finalization_payout_correct (3/100)
  exact ⟨h.2.2.1 (by norm_num) (by norm_num), h.2.2.2.2.2.2.1,
    h.2.2.2.2.2.2.2.1, h.2.2.2.2.2.2.2.2⟩

/-!  PDA-seed derivation.  JavaScript strings are modelled as lists of
Unicode code points.  `String.prototype.substring(0, 32)` counts UTF-16 code
units, while `Buffer.from(s, 'utf8')` produces UTF-8 bytes, so the two
measures are modelled separately. -/

/-- Code points of a Lean string literal, for writing concrete JS strings. -/
def strCodes (s : String) : List Nat := s.data.map Char.toNat

/-- JS dash-stripping (the replace call with the global dash regex): drop every dash (code point 45). -/
def removeDashes (s : List Nat) : List Nat := s.filter (fun c => c ≠ 45)

/-- Number of UTF-16 code units a code point occupies. -/
def utf16Units (c : Nat) : Nat := if c < 65536 then 1 else 2

/-- `s.substring(0, budget)` where `budget` counts UTF-16 code units.  When
the cut falls inside a surrogate pair, JavaScript keeps the lone high
surrogate, which `Buffer.from(..., 'utf8')` then encodes as the replacement
character U+FFFD; the model emits that replacement character directly. -/
def substringUnits : Nat → List Nat → List Nat
  | _, [] => []
  | 0, _ :: _ => []
  | b + 1, c :: cs =>
      if utf16Units c ≤ b + 1 then c :: substringUnits (b + 1 - utf16Units c) cs
      else [65533]

/-- UTF-8 encoding of one Unicode code point (`Buffer.from(s, 'utf8')`). -/
def utf8EncodeChar (c : Nat) : List Nat :=
  if c < 128 then [c]
  else if c < 2048 then [192 + c / 64, 128 + c % 64]
  else if c < 65536 then [224 + c / 4096, 128 + (c / 64) % 64, 128 + c % 64]
  else [240 + c / 262144, 128 + (c / 4096) % 64, 128 + (c / 64) % 64, 128 + c % 64]

/-- UTF-8 encoding of a string (concatenated code-point encodings). -/
def utf8Encode (s : List Nat) : List Nat := (s.map utf8EncodeChar).flatten

namespace ClientHook

/-- `PROGRAM_ID` of `use-anchor-program.ts` (line 12). -/
def PROGRAM_ID : List Nat := strCodes ("GstXQkBpu26KABj6YZ3pYKJhQphoQ72YL1zL38NC6D9U")

/-- The truncation inside `findGamePDA` of `use-anchor-program.ts`
(line 127): `dash removal then substring(0, 32)`. -/
def truncatedGameId (gameId : List Nat) : List Nat :=
  substringUnits 32 (removeDashes gameId)

/-- `findGamePDA` of `use-anchor-program.ts` (lines 123-132), parameterized by
the library derivation function `fpa` (`PublicKey.findProgramAddressSync`):
the address derived from the seeds `[Buffer.from('game'),
Buffer.from(truncatedGameId, 'utf8')]` and the program id. -/
def findGamePDA {A : Type} (fpa : List (List Nat) → List Nat → A)
    (gameId : List Nat) : A :=
  fpa [utf8Encode (strCodes ("game")), utf8Encode (truncatedGameId gameId)] PROGRAM_ID

end ClientHook

namespace AutoFinalizeService

/-- `PROGRAM_ID` of the auto-finalization service (`part_010`, line 23). -/
def PROGRAM_ID : List Nat := strCodes ("GstXQkBpu26KABj6YZ3pYKJhQphoQ72YL1zL38NC6D9U")

/-- The truncation inside `findGamePDA` of the auto-finalization service
(`part_010`, line 73): `dash removal then substring(0, 32)`. -/
def truncatedGameId (gameId : List Nat) : List Nat :=
  substringUnits 32 (removeDashes gameId)

/-- `findGamePDA` of the auto-finalization service (`part_010`, lines 70-79),
parameterized by the library derivation function exactly as the client
version is. -/
def findGamePDA {A : Type} (fpa : List (List Nat) → List Nat → A)
    (gameId : List Nat) : A :=
  fpa [utf8Encode (strCodes ("game")), utf8Encode (truncatedGameId gameId)] PROGRAM_ID

end AutoFinalizeService

/-- Auxiliary for C9: a substring of at most `b` UTF-16 code units taken from
a string of single-byte (ASCII) code points occupies at most `b` UTF-8
bytes. -/
theorem utf8_length_substring_ascii (s : List Nat) (hs : ∀ c ∈ s, c < 128) :
    ∀ b : Nat, (utf8Encode (substringUnits b s)).length ≤ b := by
  induction s with
  | nil =>
      intro b
      cases b <;> simp [substringUnits, utf8Encode]
  | cons c cs ih =>
      intro b
      have hc : c < 128 := hs c (List.mem_cons_self c cs)
      have hcs : ∀ x ∈ cs, x < 128 := fun x hx => hs x (List.mem_cons_of_mem c hx)
      cases b with
      | zero => simp [substringUnits, utf8Encode]
      | succ b =>
          have hu : utf16Units c = 1 := by
            rw [utf16Units, if_pos (by omega)]
          rw [substringUnits, if_pos (by omega), hu]
          have hrec := ih hcs (b + 1 - 1)
          simpa [utf8Encode, utf8EncodeChar, if_pos hc] using hrec

/-- Claim C9, counterexample: a 34-character session id whose dash-stripped
form is 32 euro signs (U+20AC, one UTF-16 unit but three UTF-8 bytes each).
`substring(0, 32)` keeps all 32 characters, so the seed actually handed to
the PDA derivation is 96 bytes long, far above the 32-byte limit. -/
theorem findGamePDA_seed_over_32_bytes :
    (utf8Encode (ClientHook.truncatedGameId
      (45 :: 45 :: List.replicate 32 8364))).length = 96 ∧
    ¬ (utf8Encode (ClientHook.truncatedGameId
      (45 :: 45 :: List.replicate 32 8364))).length ≤ 32 := by
  constructor
  · decide
  · decide

/-- Claim C9 as amended: for every session id consisting of single-byte
(ASCII) characters — which covers every id this system generates (decimal
strings from `createGame`, dash-stripped UUIDs) — the seed used for the
game-account PDA is at most 32 bytes, because `substring(0, 32)` then keeps
at most 32 one-byte characters.  For ids with non-ASCII characters the UTF-8
seed can exceed 32 bytes, since `substring` truncates UTF-16 code units, not
bytes. -/
theorem findGamePDA_seed_at_most_32_bytes_ascii (gameId : List Nat)
    (h : ∀ c ∈ gameId, c < 128) :
    (utf8Encode (ClientHook.truncatedGameId gameId)).length ≤ 32 := by
  have hfilter : ∀ c ∈ removeDashes gameId, c < 128 := by
    intro c hc
    exact h c (List.mem_of_mem_filter hc)
  exact utf8_length_substring_ascii (removeDashes gameId) hfilter 32

/-- Witness for the amended C9 at a concrete dash-separated ASCII id. -/
theorem findGamePDA_seed_at_most_32_bytes_ascii_witness :
    (∀ c ∈ strCodes ("550e8400-e29b-41d4-a716-446655440000"), c < 128) ∧
    (utf8Encode (ClientHook.truncatedGameId
      (strCodes ("550e8400-e29b-41d4-a716-446655440000")))).length ≤ 32 :=
  ⟨by decide, findGamePDA_seed_at_most_32_bytes_ascii _ (by decide)⟩

/-- Claim C10: the client hook's `findGamePDA` and the auto-finalization
service's `findGamePDA` feed identical seeds and program id to the library
derivation function, for every game id and every derivation function, so
client and custodial finalizer always target the same game account. -/
theorem findGamePDA_client_service_agree {A : Type}
    (fpa : List (List Nat) → List Nat → A) (gameId : List Nat) :
    ClientHook.findGamePDA fpa gameId = AutoFinalizeService.findGamePDA fpa gameId :=
  rfl

/-- A concrete mid-match state used by the forfeit and invariant claims:
a private SOL session in `playing`, round 2, local player `abcd1234`. -/
def samplePlayingState : GameState :=
  { gameId := some ("g1")
    gameType := GameType.privateGame
    currency := Currency.sol
    player1 := { id := some ("abcd1234"), wallet := some ("w1"), wins := 1,
                 currentMove := some ("rock"), ready := true }
    player2 := some { id := some ("efgh5678"), wallet := some ("w2"), wins := 0,
                      currentMove := none, ready := false }
    currentRound := 2
    gameStatus := GStatus.playing
    winner := none
    stakeAmount := 3/100
    totalPot := 6/100
    roundResult := none
    countdown := 0 }

/-- Claim C5: when a player leaves a `playing` session, the remaining
player's client moves the session to `game-over` with the remaining player
(`myPlayerId`) as winner, fires the match-finished notification with
`winner.reason = 'opponent_quit'`, requires no move submission, and leaves
every other session field (players, scores, round, stakes, ids) unchanged. -/
theorem playing_player_left_forfeits (myPlayerId dataGameId : Option String)
    (prev : GameState) (h : prev.gameStatus = GStatus.playing) :
    (handlePlayerLeft myPlayerId dataGameId prev).1.gameStatus = GStatus.gameOver ∧
    (handlePlayerLeft myPlayerId dataGameId prev).1.winner = myPlayerId ∧
    (handlePlayerLeft myPlayerId dataGameId prev).2 =
      some { gameId := dataGameId
             winnerPlayerId := myPlayerId
             winnerReason := "opponent_quit"
             quitReason := "opponent_left"
             gameStatePayload := none } ∧
    (handlePlayerLeft myPlayerId dataGameId prev).1.player1 = prev.player1 ∧
    (handlePlayerLeft myPlayerId dataGameId prev).1.player2 = prev.player2 ∧
    (handlePlayerLeft myPlayerId dataGameId prev).1.currentRound = prev.currentRound ∧
    (handlePlayerLeft myPlayerId dataGameId prev).1.stakeAmount = prev.stakeAmount ∧
    (handlePlayerLeft myPlayerId dataGameId prev).1.totalPot = prev.totalPot ∧
    (handlePlayerLeft myPlayerId dataGameId prev).1.currency = prev.currency ∧
    (handlePlayerLeft myPlayerId dataGameId prev).1.gameType = prev.gameType ∧
    (handlePlayerLeft myPlayerId dataGameId prev).1.gameId = prev.gameId ∧
    (handlePlayerLeft myPlayerId dataGameId prev).1.countdown = prev.countdown := by
  simp [handlePlayerLeft, h]

/-- Witness for C5: the theorem applied at a concrete `playing` state. -/
theorem playing_player_left_forfeits_witness :
    (handlePlayerLeft (some ("abcd1234")) (some ("g1")) samplePlayingState).1.gameStatus
        = GStatus.gameOver ∧
    (handlePlayerLeft (some ("abcd1234")) (some ("g1")) samplePlayingState).1.winner
        = some ("abcd1234") :=
  ⟨(playing_player_left_forfeits (some ("abcd1234")) (some ("g1"))
      samplePlayingState rfl).1,
   (playing_player_left_forfeits (some ("abcd1234")) (some ("g1"))
      samplePlayingState rfl).2.1⟩

/-- Claim C6, counterexample: at a concrete `playing` state the
`player_disconnected` handler and the `player_left` handler do not produce
the same notification — the disconnect notification carries reason
`opponent_disconnect`, not `opponent_quit` — and their resulting states
differ (different `roundResult` messages), so the two handlers are not
observationally identical as the claim states. -/
theorem disconnect_handler_differs_from_left_handler :
    (handlePlayerDisconnected (some ("abcd1234"))
        { gameId := some ("g1"), disconnectedPlayerId := "efgh5678", gameState := none }
        samplePlayingState).2.map ForfeitNotice.winnerReason
      = some ("opponent_disconnect") ∧
    (handlePlayerLeft (some ("abcd1234")) (some ("g1")) samplePlayingState).2.map
        ForfeitNotice.winnerReason = some ("opponent_quit") ∧
    handlePlayerDisconnected (some ("abcd1234"))
        { gameId := some ("g1"), disconnectedPlayerId := "efgh5678", gameState := none }
        samplePlayingState
      ≠ handlePlayerLeft (some ("abcd1234")) (some ("g1")) samplePlayingState := by
  refine ⟨by decide, by decide, fun hEq => ?_⟩
  have hrr := congrArg (fun p => p.1.roundResult) hEq
  simp [handlePlayerDisconnected, handlePlayerLeft, samplePlayingState] at hrr

/-- Claim C6 as amended: during `playing`, an opponent disconnection is
handled like an opponent leave as far as the session outcome goes — same
`game-over` status, same winner (the remaining local player), same players,
scores, round and stakes — but not observationally identically: the
`roundResult` message differs, and the notifications differ in their reason
fields (`opponent_disconnect` / `opponent_disconnected` for a disconnect
versus `opponent_quit` / `opponent_left` for a leave) and in the forwarded
`gameState` payload. -/
theorem disconnect_matches_left_forfeit_up_to_reason
    (myId : Option String) (d : DisconnectData) (prev : GameState)
    (h1 : prev.gameStatus = GStatus.playing)
    (h2 : some d.disconnectedPlayerId ≠ myId) :
    (handlePlayerDisconnected myId d prev).1.gameStatus
        = (handlePlayerLeft myId d.gameId prev).1.gameStatus ∧
    (handlePlayerDisconnected myId d prev).1.winner
        = (handlePlayerLeft myId d.gameId prev).1.winner ∧
    (handlePlayerDisconnected myId d prev).1.player1
        = (handlePlayerLeft myId d.gameId prev).1.player1 ∧
    (handlePlayerDisconnected myId d prev).1.player2
        = (handlePlayerLeft myId d.gameId prev).1.player2 ∧
    (handlePlayerDisconnected myId d prev).1.currentRound
        = (handlePlayerLeft myId d.gameId prev).1.currentRound ∧
    (handlePlayerDisconnected myId d prev).1.stakeAmount
        = (handlePlayerLeft myId d.gameId prev).1.stakeAmount ∧
    (handlePlayerDisconnected myId d prev).2.map ForfeitNotice.winnerPlayerId
        = some myId ∧
    (handlePlayerDisconnected myId d prev).2.map ForfeitNotice.winnerReason
        = some ("opponent_disconnect") ∧
    (handlePlayerDisconnected myId d prev).2.map ForfeitNotice.quitReason
        = some ("opponent_disconnected") ∧
    (handlePlayerLeft myId d.gameId prev).2.map ForfeitNotice.winnerReason
        = some ("opponent_quit") ∧
    (handlePlayerLeft myId d.gameId prev).2.map ForfeitNotice.quitReason
        = some ("opponent_left") := by
  simp [handlePlayerLeft, handlePlayerDisconnected, h1, h2]

/-- Witness for the amended C6 at a concrete `playing` state. -/
theorem disconnect_matches_left_forfeit_up_to_reason_witness :
    (handlePlayerDisconnected (some ("abcd1234"))
        { gameId := some ("g1"), disconnectedPlayerId := "efgh5678", gameState := none }
        samplePlayingState).1.gameStatus
      = (handlePlayerLeft (some ("abcd1234")) (some ("g1"))
          samplePlayingState).1.gameStatus :=
  (disconnect_matches_left_forfeit_up_to_reason (some ("abcd1234"))
    { gameId := some ("g1"), disconnectedPlayerId := "efgh5678", gameState := none }
    samplePlayingState rfl (by decide)).1

/-- The spec's derived-readiness property for one player slot: a non-null
`currentMove` implies `ready`. -/
def readyDerived (p : Player) : Bool := !p.currentMove.isSome || p.ready

/-- The derived-readiness property over a whole session state. -/
def readyDerivedInv (s : GameState) : Bool :=
  readyDerived s.player1 &&
    (match s.player2 with
     | some p2 => readyDerived p2
     | none => true)

/-- Claim C8, counterexample: at a state satisfying the derived-readiness
invariant, a `round_completed` event is handled by keeping each player's
move for the result display while forcing `ready := false`, so the resulting
`round-result` state has a non-null move with `ready = false` — the
invariant is not preserved by `handleRoundCompleted`. -/
theorem round_completed_breaks_ready_invariant :
    readyDerivedInv
      { samplePlayingState with
          player2 := some { id := some ("efgh5678"), wallet := some ("w2"),
                            wins := 0, currentMove := some ("paper"),
                            ready := true } } = true ∧
    readyDerivedInv
      (handleRoundCompleted (some ("w1"))
        { roundWinner := some ("player1")
          scoresPlayer1 := 2
          scoresPlayer2 := 0
          gsPlayer1Wallet := some ("w1")
          gsPlayer2Wallet := some ("w2")
          gsPlayer1Move := some ("rock")
          gsPlayer2Move := some ("paper")
          gsCurrentRound := some 2 }
        { samplePlayingState with
            player2 := some { id := some ("efgh5678"), wallet := some ("w2"),
                              wins := 0, currentMove := some ("paper"),
                              ready := true } }) = false ∧
    (handleRoundCompleted (some ("w1"))
        { roundWinner := some ("player1")
          scoresPlayer1 := 2
          scoresPlayer2 := 0
          gsPlayer1Wallet := some ("w1")
          gsPlayer2Wallet := some ("w2")
          gsPlayer1Move := some ("rock")
          gsPlayer2Move := some ("paper")
          gsCurrentRound := some 2 }
        { samplePlayingState with
            player2 := some { id := some ("efgh5678"), wallet := some ("w2"),
                              wins := 0, currentMove := some ("paper"),
                              ready := true } }).player1.currentMove = some ("rock") ∧
    (handleRoundCompleted (some ("w1"))
        { roundWinner := some ("player1")
          scoresPlayer1 := 2
          scoresPlayer2 := 0
          gsPlayer1Wallet := some ("w1")
          gsPlayer2Wallet := some ("w2")
          gsPlayer1Move := some ("rock")
          gsPlayer2Move := some ("paper")
          gsCurrentRound := some 2 }
        { samplePlayingState with
            player2 := some { id := some ("efgh5678"), wallet := some ("w2"),
                              wins := 0, currentMove := some ("paper"),
                              ready := true } }).player1.ready = false := by
  refine ⟨by decide, by decide, by decide, by decide⟩

/-- Claim C8 as amended: the derived-readiness invariant (non-null move ⇒
ready) is preserved by the move-submission handler and re-established by the
next-round handler (which clears both move and ready), but the
round-completed handler deliberately retains each player's last move for the
result display while resetting both `ready` flags to `false` — so during
`round-result` a non-null move coexists with `ready = false` — and the
game-joined handler copies `currentMove` and `ready` verbatim from the
server payload (`ready` defaulting to `false`), maintaining the invariant
only when the payload does. -/
theorem ready_invariant_by_handler :
    (∀ (d : MoveSubmittedData) (prev : GameState), readyDerivedInv prev = true →
        readyDerivedInv (handleMoveSubmitted d prev) = true) ∧
    (∀ (round : Nat) (prev : GameState),
        readyDerivedInv (handleNextRound round prev) = true) ∧
    (∀ (w : Option String) (d : RoundCompletedData) (prev : GameState),
        (handleRoundCompleted w d prev).player1.ready = false ∧
        ∀ p2, (handleRoundCompleted w d prev).player2 = some p2 → p2.ready = false) ∧
    (∀ (my : Option String) (d : GameJoinedData),
        (handleGameJoined my d).player1.currentMove = d.player1.currentMove ∧
        (handleGameJoined my d).player1.ready = d.player1.ready.getD false) := by
  refine ⟨?_, ?_, ?_, ?_⟩
  · intro d prev h
    rw [readyDerivedInv, Bool.and_eq_true] at h
    obtain ⟨h1, h2⟩ := h
    rw [readyDerivedInv, Bool.and_eq_true]
    constructor
    · by_cases hid : prev.player1.id = some d.playerId
      · simp [handleMoveSubmitted, hid, readyDerived]
      · simpa [handleMoveSubmitted, hid, readyDerived] using h1
    · cases hp2 : prev.player2 with
      | none => simp [handleMoveSubmitted, hp2]
      | some p2 =>
          rw [hp2] at h2
          by_cases hid2 : p2.id = some d.playerId
          · simp [handleMoveSubmitted, hp2, hid2, readyDerived]
          · simpa [handleMoveSubmitted, hp2, hid2] using h2
  · intro round prev
    rw [readyDerivedInv, Bool.and_eq_true]
    constructor
    · simp [handleNextRound, readyDerived]
    · cases hp2 : prev.player2 with
      | none => simp [handleNextRound, hp2]
      | some p2 => simp [handleNextRound, hp2, readyDerived]
  · intro w d prev
    constructor
    · simp [handleRoundCompleted]
    · intro p2 hp2
      cases hprev : prev.player2 with
      | none => simp [handleRoundCompleted, hprev] at hp2
      | some q =>
          simp [handleRoundCompleted, hprev] at hp2
          rw [← hp2]
  · intro my d
    constructor
    · simp [handleGameJoined]
    · simp [handleGameJoined]

/-- Witness for the amended C8: the preservation conjunct applied at a
concrete state and move event. -/
theorem ready_invariant_by_handler_witness :
    readyDerivedInv (handleMoveSubmitted
      { playerId := "efgh5678", move := "scissors" } samplePlayingState) = true :=
  ready_invariant_by_handler.1
    { playerId := "efgh5678", move := "scissors" } samplePlayingState (by decide)

/-!  Auto-finalization service (`src/unnamed/part_010`).  Wallet addresses
are abstract naturals; the on-chain interactions the code performs are
recorded as a list of submitted transactions, and the RPC responses the code
branches on are supplied by a `ServiceChain` record. -/

/-- The fields `autoFinalizeSolGame` parses out of the raw game-account
bytes: player 1, the option tag byte at the player-2 offset (1 = present),
and player 2. -/
structure OnChainGameData where
  player1Key : Nat
  player2Tag : Nat
  player2Key : Nat
deriving DecidableEq

/-- The ledger responses observed during one `autoFinalizeSolGame`
invocation: the game account (or none), whether the `set_winner` rpc
succeeds, the `referred_by` option tag read from the winner's profile
account (none when that account is missing), the referrer key when present,
and whether the finalize `sendAndConfirm` succeeds. -/
structure ServiceChain where
  gameAccount : Option OnChainGameData
  setWinnerOk : Bool
  winnerProfileReferredByTag : Option Nat
  referrerKey : Nat
  finalizeOk : Bool
deriving DecidableEq

/-- A transaction submitted by the auto-finalization service: the
`set_winner` call naming the winner argument, or the hand-built
`finalize_game` instruction whose referrer account is the winner's referrer
when one is on file and the platform wallet otherwise. -/
inductive ServiceTx
  | setWinner (gameId : List Nat) (winner : Nat)
  | finalizeGame (gameId : List Nat) (referrer : Nat)
deriving DecidableEq

set_option linter.unusedVariables false in
/-- `autoFinalizeSolGame` of `part_010` (lines 100-359): abort when the
service wallet is uninitialized, when the game account is missing, or when
the player-2 option tag is not `Some`; otherwise submit `set_winner` for the
requested winner (abort on failure), look up the winner's referrer, submit
the `finalize_game` instruction, and return a bare success boolean.  Every
failure is caught and reported as `false` (the fallback recovery block is an
unimplemented TODO in the source).  `loserPublicKey` and `stakeAmount` are
only logged.  The function neither consults nor writes any finalization
record: no such store exists in the source. -/
def autoFinalizeSolGame (serviceWalletReady : Bool) (platformWallet : Nat)
    (chain : ServiceChain) (gameId : List Nat) (winner loser : Nat)
    (stakeAmount : ℚ) : Bool × List ServiceTx :=
  if serviceWalletReady = false then (false, [])
  else
    match chain.gameAccount with
    | none => (false, [])
    | some acct =>
        if acct.player2Tag ≠ 1 then (false, [])
        else if chain.setWinnerOk = false then
          (false, [ServiceTx.setWinner gameId winner])
        else
          let referrerWallet :=
            match chain.winnerProfileReferredByTag with
            | some 1 => chain.referrerKey
            | _ => platformWallet
          let txs := [ServiceTx.setWinner gameId winner,
                      ServiceTx.finalizeGame gameId referrerWallet]
          if chain.finalizeOk then (true, txs) else (false, txs)

/-- Claim C1 (code bug): the service holds no `FinalizationRecord` — the
function's inputs and outputs contain no record store at all — so its
behavior is a function of the current chain view alone.  Against a chain
view in which the game account is still present (as the source itself
observes it to be right after `set_winner`), an invocation submits the
`set_winner` and `finalize_game` transactions and returns a bare boolean;
a second invocation for the same sessionId therefore submits them again —
two payout transactions across the two triggers — instead of being a no-op
returning an existing `settled` record. -/
theorem autoFinalizeSolGame_retrigger_resubmits :
    autoFinalizeSolGame true 99
        { gameAccount := some { player1Key := 11, player2Tag := 1, player2Key := 22 }
          setWinnerOk := true
          winnerProfileReferredByTag := some 0
          referrerKey := 0
          finalizeOk := true }
        (strCodes ("g1")) 11 22 (3/100)
      = (true, [ServiceTx.setWinner (strCodes ("g1")) 11,
                ServiceTx.finalizeGame (strCodes ("g1")) 99]) ∧
    ((autoFinalizeSolGame true 99
        { gameAccount := some { player1Key := 11, player2Tag := 1, player2Key := 22 }
          setWinnerOk := true
          winnerProfileReferredByTag := some 0
          referrerKey := 0
          finalizeOk := true }
        (strCodes ("g1")) 11 22 (3/100)).2 ++
     (autoFinalizeSolGame true 99
        { gameAccount := some { player1Key := 11, player2Tag := 1, player2Key := 22 }
          setWinnerOk := true
          winnerProfileReferredByTag := some 0
          referrerKey := 0
          finalizeOk := true }
        (strCodes ("g1")) 11 22 (3/100)).2).count
        (ServiceTx.finalizeGame (strCodes ("g1")) 99) = 2 := by
  constructor
  · rfl
  · rfl

/-- Claim C7 (code bug): when the finalize transaction fails, the service
submits no retry (exactly one `finalize_game` submission in the whole
invocation), fetches no fresh on-chain state afterwards (the failure branch
performs no further chain reads or writes), and records no
`failed-needs-recovery` outcome — it only logs and returns `false` (the
failure is indeed reported rather than fatal, which is the one part of the
claim the code satisfies). -/
theorem autoFinalizeSolGame_failure_no_retry_no_record :
    autoFinalizeSolGame true 99
        { gameAccount := some { player1Key := 11, player2Tag := 1, player2Key := 22 }
          setWinnerOk := true
          winnerProfileReferredByTag := some 0
          referrerKey := 0
          finalizeOk := false }
        (strCodes ("g2")) 11 22 (3/100)
      = (false, [ServiceTx.setWinner (strCodes ("g2")) 11,
                 ServiceTx.finalizeGame (strCodes ("g2")) 99]) ∧
    (autoFinalizeSolGame true 99
        { gameAccount := some { player1Key := 11, player2Tag := 1, player2Key := 22 }
          setWinnerOk := true
          winnerProfileReferredByTag := some 0
          referrerKey := 0
          finalizeOk := false }
        (strCodes ("g2")) 11 22 (3/100)).2.count
        (ServiceTx.finalizeGame (strCodes ("g2")) 99) = 1 := by
  constructor
  · rfl
  · rfl

/-!  The abandoned-game recovery branch of `finalizeGame` in
`use-anchor-program.ts` (lines 142-473).  The hook receives only the game id;
the invoking wallet (`publicKey`) signs every instruction it submits. -/

/-- The fields of the decoded on-chain game account the client flow reads:
`gameStatus.finished`, `winner`, and the two players. -/
structure DecodedGame where
  finished : Bool
  winner : Option Nat
  player1 : Nat
  player2 : Option Nat
deriving DecidableEq

/-- The ledger responses observed during one client `finalizeGame` call:
the decoded game account (none covers both a missing account and a decode
failure), whether the synthetic commitment/reveal transactions go through,
the re-decoded account after them (none when the re-read or decode fails),
whether the abandon pathway goes through, and whether the final
`finalizeGame` transaction succeeds. -/
structure ClientChain where
  gameAccount : Option DecodedGame
  movesOk : Bool
  refetch : Option DecodedGame
  abandonOk : Bool
  finalizeOk : Bool
deriving DecidableEq

/-- An instruction submitted by the client hook, with the wallet it is
submitted for: the synthetic winning-move commitment (`submitMove`) and its
reveal (`revealMoves`, always rock) are built around `user: publicKey`, the
invoking wallet; `abandonGame` likewise; `finalizeAbandonedGame` and
`finalizeGame` carry the two players read from the game account. -/
inductive ClientInstr
  | submitMove (gameId : List Nat) (user : Nat)
  | revealMoves (gameId : List Nat) (user : Nat)
  | abandonGame (gameId : List Nat) (user : Nat)
  | finalizeAbandonedGame (gameId : List Nat) (player1 player2 : Nat)
  | finalizeGame (gameId : List Nat) (player1 player2 : Nat)
deriving DecidableEq

/-- The final `finalize_game` submission of the client flow (lines 395-437):
it reads both player accounts off the decoded game, so a missing `player2`
throws before anything is submitted; otherwise the result is the
transaction's outcome. -/
def clientFinalizeStep (acct : DecodedGame) (chain : ClientChain)
    (gameId : List Nat) (done : List ClientInstr) : Bool × List ClientInstr :=
  match acct.player2 with
  | none => (false, done)
  | some p2 => (chain.finalizeOk, done ++ [ClientInstr.finalizeGame gameId acct.player1 p2])

/-- The abandon pathway (lines 302-375): mark the game abandoned and
finalize it as abandoned (refunding stakes), returning success; when the
abandon transaction fails, fall through to the normal finalization attempt. -/
def clientAbandonPath (invoker : Nat) (acct : DecodedGame) (chain : ClientChain)
    (gameId : List Nat) (done : List ClientInstr) : Bool × List ClientInstr :=
  if chain.abandonOk then
    (true, done ++ [ClientInstr.abandonGame gameId invoker,
                    ClientInstr.finalizeAbandonedGame gameId acct.player1
                      (acct.player2.getD acct.player1)])
  else
    clientFinalizeStep acct chain gameId
      (done ++ [ClientInstr.abandonGame gameId invoker])

/-- The client `finalizeGame` flow of `use-anchor-program.ts` (lines
142-473), invoked with only a game id by wallet `invoker`: a finished game
returns immediately; a game with no on-chain winner (completed off-chain)
triggers the recovery branch, which submits a synthetic winning rock
commitment and its reveal **for the invoking wallet**, re-reads the account,
and either proceeds to finalization (when the game is now finished with a
winner) or takes the abandon pathway; failures fall through to the normal
finalization attempt.  The off-chain winner is not an input anywhere. -/
def clientFinalizeGame (invoker : Nat) (chain : ClientChain)
    (gameId : List Nat) : Bool × List ClientInstr :=
  match chain.gameAccount with
  | none => (false, [])
  | some acct =>
      if acct.finished then (true, [])
      else if acct.winner = none then
        if chain.movesOk then
          match chain.refetch with
          | some updated =>
              if updated.finished ∧ updated.winner ≠ none then
                clientFinalizeStep acct chain gameId
                  [ClientInstr.submitMove gameId invoker,
                   ClientInstr.revealMoves gameId invoker]
              else
                clientAbandonPath invoker acct chain gameId
                  [ClientInstr.submitMove gameId invoker,
                   ClientInstr.revealMoves gameId invoker]
          | none =>
              clientAbandonPath invoker acct chain gameId
                [ClientInstr.submitMove gameId invoker,
                 ClientInstr.revealMoves gameId invoker]
        else
          clientFinalizeStep acct chain gameId [ClientInstr.submitMove gameId invoker]
      else
        clientFinalizeStep acct chain gameId []

/-- Claim C2 (code bug): with off-chain winner `22` and off-chain loser `11`
invoking the hook on a game the ledger still shows unfinished, every
synthetic move instruction the recovery submits names the invoker `11` — the
commitment and reveal that make the ledger agree the match is finished are
issued for the loser, and no submitted instruction names the off-chain
winner `22` as move submitter — so the on-chain result is driven toward
whoever invokes recovery, not the real winner. -/
theorem recovery_submits_for_invoker_not_winner :
    clientFinalizeGame 11
        { gameAccount := some { finished := false, winner := none,
                                player1 := 11, player2 := some 22 }
          movesOk := true
          refetch := some { finished := true, winner := some 11,
                            player1 := 11, player2 := some 22 }
          abandonOk := true
          finalizeOk := true }
        (strCodes ("g3"))
      = (true, [ClientInstr.submitMove (strCodes ("g3")) 11,
                ClientInstr.revealMoves (strCodes ("g3")) 11,
                ClientInstr.finalizeGame (strCodes ("g3")) 11 22]) ∧
    (11 : Nat) ≠ 22 ∧
    ClientInstr.submitMove (strCodes ("g3")) 22 ∉
      (clientFinalizeGame 11
        { gameAccount := some { finished := false, winner := none,
                                player1 := 11, player2 := some 22 }
          movesOk := true
          refetch := some { finished := true, winner := some 11,
                            player1 := 11, player2 := some 22 }
          abandonOk := true
          finalizeOk := true }
        (strCodes ("g3"))).2 ∧
    ClientInstr.revealMoves (strCodes ("g3")) 22 ∉
      (clientFinalizeGame 11
        { gameAccount := some { finished := false, winner := none,
                                player1 := 11, player2 := some 22 }
          movesOk := true
          refetch := some { finished := true, winner := some 11,
                            player1 := 11, player2 := some 22 }
          abandonOk := true
          finalizeOk := true }
        (strCodes ("g3"))).2 := by
  refine ⟨by decide, by decide, by decide, by decide⟩

/-!  Match Coordinator stake gate.  The server entry point
(`src/unnamed/part_002`) requires `./src/socket/socketHandlers` and the game
manager, but those backend files are not in the repository snapshot; the
coordinator that records stake acknowledgments and emits `game_started` is
therefore modelled from the spec. -/

/-- A coordinator-side session status (spec section 4.1). -/
inductive CStatus
  | waiting
  | playing
  | cancelled
deriving DecidableEq

/-- Modelled from the spec: the backend Match Coordinator session record for
one stake match, as far as the stake gate is concerned — the session's
currency, its status, whether player 2 has joined, and the two per-player
stake acknowledgments (`onchain_game_created` / `onchain_game_joined`)
recorded by the Settlement Reconciler (spec sections 4.1 and 4.2). -/
structure CoordSession where
  currency : Currency
  status : CStatus
  hasPlayer2 : Bool
  p1StakeAck : Bool
  p2StakeAck : Bool
deriving DecidableEq

/-- Modelled from the spec: the events the coordinator receives for one
session — second player joining, the host's start request, each player's
on-chain stake acknowledgment, and a leave while waiting. -/
inductive CoordEvent
  | joinSession
  | startGame
  | onchainGameCreated
  | onchainGameJoined
  | leaveSession
deriving DecidableEq

/-- Modelled from the spec: one coordinator transition.  A points match may
start once both players are present; a ledger-stake (SOL) match stays in
`waiting` until **both** stake acknowledgments are recorded, whatever order
they arrive in, and only then moves to `playing` (spec sections 4.1, 4.2 and
8); a leave while waiting cancels. -/
def coordStep (s : CoordSession) (e : CoordEvent) : CoordSession :=
  match e with
  | CoordEvent.joinSession =>
      if s.status = CStatus.waiting then { s with hasPlayer2 := true } else s
  | CoordEvent.startGame =>
      if s.status = CStatus.waiting ∧ s.hasPlayer2 ∧ s.currency = Currency.points then
        { s with status := CStatus.playing }
      else s
  | CoordEvent.onchainGameCreated =>
      let s1 := { s with p1StakeAck := true }
      if s1.status = CStatus.waiting ∧ s1.hasPlayer2 ∧ s1.p1StakeAck ∧ s1.p2StakeAck then
        { s1 with status := CStatus.playing }
      else s1
  | CoordEvent.onchainGameJoined =>
      let s1 := { s with p2StakeAck := true }
      if s1.status = CStatus.waiting ∧ s1.hasPlayer2 ∧ s1.p1StakeAck ∧ s1.p2StakeAck then
        { s1 with status := CStatus.playing }
      else s1
  | CoordEvent.leaveSession =>
      if s.status = CStatus.waiting then { s with status := CStatus.cancelled } else s

/-- Modelled from the spec: a freshly created session is `waiting` with no
second player and no acknowledgment recorded. -/
def coordInit (c : Currency) : CoordSession :=
  { currency := c, status := CStatus.waiting, hasPlayer2 := false,
    p1StakeAck := false, p2StakeAck := false }

/-- A session after processing a sequence of events. -/
def coordRun (s : CoordSession) (evs : List CoordEvent) : CoordSession :=
  evs.foldl coordStep s

/-- The stake-gate invariant: a ledger-stake session in `playing` has both
acknowledgments recorded. -/
def coordInv (s : CoordSession) : Prop :=
  s.currency = Currency.sol → s.status = CStatus.playing →
    s.p1StakeAck = true ∧ s.p2StakeAck = true

/-- One coordinator transition preserves the stake-gate invariant. -/
theorem coordStep_preserves_inv (s : CoordSession) (e : CoordEvent)
    (h : coordInv s) : coordInv (coordStep s e) := by
  intro hcur hplay
  cases e with
  | joinSession =>
      rw [coordStep] at hcur hplay ⊢
      split at hplay <;> simp_all [coordInv]
  | startGame =>
      rw [coordStep] at hcur hplay ⊢
      split at hplay <;> simp_all [coordInv]
  | onchainGameCreated =>
      rw [coordStep] at hcur hplay ⊢
      split at hplay <;> simp_all [coordInv]
  | onchainGameJoined =>
      rw [coordStep] at hcur hplay ⊢
      split at hplay <;> simp_all [coordInv]
  | leaveSession =>
      rw [coordStep] at hcur hplay ⊢
      split at hplay <;> simp_all [coordInv]

/-- The stake-gate invariant holds along every event sequence. -/
theorem coordRun_preserves_inv (evs : List CoordEvent) :
    ∀ s : CoordSession, coordInv s → coordInv (coordRun s evs) := by
  induction evs with
  | nil => intro s h; exact h
  | cons e rest ih =>
      intro s h
      exact ih (coordStep s e) (coordStep_preserves_inv s e h)

/-- A coordinator transition never changes the session's currency. -/
theorem coordStep_currency (s : CoordSession) (e : CoordEvent) :
    (coordStep s e).currency = s.currency := by
  cases e <;> rw [coordStep] <;> split <;> rfl

/-- Processing any event sequence never changes the session's currency. -/
theorem coordRun_currency (evs : List CoordEvent) :
    ∀ s : CoordSession, (coordRun s evs).currency = s.currency := by
  induction evs with
  | nil => intro s; rfl
  | cons e rest ih =>
      intro s
      exact (ih (coordStep s e)).trans (coordStep_currency s e)

/-- Claim C4 (coordinator modelled from the spec, its backend source being
absent from the snapshot): for every interleaving and ordering of the two
stake acknowledgments with the other session events, a ledger-stake session
that has reached `playing` has both players' acknowledgments recorded — it
never becomes `playing` before they are. -/
theorem sol_playing_requires_both_acks (evs : List CoordEvent)
    (h : (coordRun (coordInit Currency.sol) evs).status = CStatus.playing) :
    (coordRun (coordInit Currency.sol) evs).p1StakeAck = true ∧
    (coordRun (coordInit Currency.sol) evs).p2StakeAck = true :=
  coordRun_preserves_inv evs (coordInit Currency.sol)
    (fun _ hplay => by simp [coordInit] at hplay)
    (coordRun_currency evs (coordInit Currency.sol)) h

/-- Witness for C4: the trace join, creator acknowledgment, joiner
acknowledgment does reach `playing`, and the theorem applies to it. -/
theorem sol_playing_requires_both_acks_witness :
    (coordRun (coordInit Currency.sol)
        [CoordEvent.joinSession, CoordEvent.onchainGameCreated,
         CoordEvent.onchainGameJoined]).status = CStatus.playing ∧
    (coordRun (coordInit Currency.sol)
        [CoordEvent.joinSession, CoordEvent.onchainGameCreated,
         CoordEvent.onchainGameJoined]).p1StakeAck = true ∧
    (coordRun (coordInit Currency.sol)
        [CoordEvent.joinSession, CoordEvent.onchainGameCreated,
         CoordEvent.onchainGameJoined]).p2StakeAck = true :=
  ⟨by decide,
   sol_playing_requires_both_acks
     [CoordEvent.joinSession, CoordEvent.onchainGameCreated,
      CoordEvent.onchainGameJoined] (by decide)⟩
